import Mathlib

/-!
Shallow embedding of the shine-tracker-deal price-tracking application's
scoring, sentiment-aggregation, price-drop and analysis-proxy logic,
together with theorems checking the natural-language specification
against it.

Numbers are modelled as exact rationals (idealising JavaScript floats);
`Math.sqrt` is modelled by `Real.sqrt`; `Math.round` by the
floor-of-x-plus-half function that JavaScript implements.
-/

/-- JavaScript `Math.round`: round half toward positive infinity. -/
def roundJS (x : ℚ) : ℤ := ⌊x + 1 / 2⌋

/-- JavaScript `Math.min(...prices)` over a spread array, as a fold of
binary `min`; the empty case (JS `Infinity`) is unreachable in the
guarded call sites and mapped to 0. -/
def listMin : List ℚ → ℚ
  | [] => 0
  | x :: xs => xs.foldl min x

/-- JavaScript `Math.max(...prices)`, analogous to `listMin`. -/
def listMax : List ℚ → ℚ
  | [] => 0
  | x :: xs => xs.foldl max x

/-- JavaScript `arr.slice(-n)`: the suffix of the last at-most-`n`
elements. -/
def lastN (n : ℕ) (l : List ℚ) : List ℚ := l.drop (l.length - n)

namespace ProductDetail

/-- The `ProductReview` record of `src/pages/ProductDetail.tsx`. -/
structure ProductReview where
  id : String
  user_name : String
  rating : ℚ
  review_text : String
  created_at : String
  helpful_count : ℤ
deriving DecidableEq

/-- `pricePosition` of `analyzeProductWithAI`
(src/pages/ProductDetail.tsx:472): position of the current price
within the observed range, 50 when the range is zero. -/
def pricePosition (currentPrice : ℚ) (prices : List ℚ) : ℚ :=
  let lowest := listMin prices
  let highest := listMax prices
  let priceRange := highest - lowest
  if 0 < priceRange then ((currentPrice - lowest) / priceRange) * 100 else 50

/-- `trendSlope` of `analyzeProductWithAI`
(src/pages/ProductDetail.tsx:474-484): least-squares accumulation over
the enumerated last at-most-14 prices, guarded by a minimum of three
points and a non-zero denominator. -/
def trendSlope (prices : List ℚ) : ℚ :=
  let recentPrices := lastN 14 prices
  if 2 < recentPrices.length then
    let n : ℚ := recentPrices.length
    let xMean : ℚ := (n - 1) / 2
    let yMean : ℚ := recentPrices.sum / n
    let num : ℚ :=
      ((recentPrices.enum).map (fun p => ((p.1 : ℚ) - xMean) * (p.2 - yMean))).sum
    let den : ℚ :=
      ((recentPrices.enum).map (fun p => ((p.1 : ℚ) - xMean) ^ 2)).sum
    if den ≠ 0 then num / den else 0
  else 0

/-- `avg` of `analyzeProductWithAI` (src/pages/ProductDetail.tsx:468). -/
def avgPrice (prices : List ℚ) : ℚ := prices.sum / prices.length

/-- `stdDev` of `analyzeProductWithAI` (src/pages/ProductDetail.tsx:487):
square root of the population variance of the prices. -/
noncomputable def stdDev (prices : List ℚ) : ℝ :=
  Real.sqrt (((prices.map (fun p => (p - avgPrice prices) ^ 2)).sum / prices.length : ℚ))

/-- `volatility` of `analyzeProductWithAI`
(src/pages/ProductDetail.tsx:488). -/
noncomputable def volatility (prices : List ℚ) : ℝ :=
  (stdDev prices / ((avgPrice prices : ℚ) : ℝ)) * 100

/-- `avgRating` of `analyzeProductWithAI`
(src/pages/ProductDetail.tsx:491): mean review rating, defaulting to 3
when there are no reviews. -/
def avgRating (reviews : List ProductReview) : ℚ :=
  if 0 < reviews.length then (reviews.map (fun r => r.rating)).sum / reviews.length else 3

/-- `reviewBonus` of `analyzeProductWithAI`
(src/pages/ProductDetail.tsx:492). -/
def reviewBonus (reviews : List ProductReview) : ℚ :=
  ((avgRating reviews - 3) / 2) * 15

/-- `worthBuyingScore` of `analyzeProductWithAI`
(src/pages/ProductDetail.tsx:495-498): rounded base score plus review
bonus, then the two trend adjustments, then clamping into [5, 95]. -/
def worthBuyingScore (currentPrice : ℚ) (prices : List ℚ)
    (reviews : List ProductReview) : ℤ :=
  let pp := pricePosition currentPrice prices
  let rb := reviewBonus reviews
  let ts := trendSlope prices
  let s0 := roundJS (100 - pp + rb)
  let s1 := if ts < 0 then s0 + 10 else s0
  let s2 := if 0 < ts then s1 - 5 else s1
  max 5 (min 95 s2)

/-- Recommendation tiers of the `analyzeProductWithAI` narrative
branches (src/pages/ProductDetail.tsx:508-517). -/
inductive Tier where
  | strongBuy
  | fairDeal
  | wait
deriving DecidableEq

/-- Branch selection on the final score
(src/pages/ProductDetail.tsx:508, 511). -/
def tierOf (score : ℤ) : Tier :=
  if 70 ≤ score then Tier.strongBuy
  else if 40 ≤ score then Tier.fairDeal
  else Tier.wait

/-- A point of the fetched price history
(`PriceHistory` record, src/pages/ProductDetail.tsx:33-36). -/
structure PricePoint where
  recorded_at : String
  price : ℚ
deriving DecidableEq

/-- A significant price drop
(`PriceDrop` record, src/pages/ProductDetail.tsx:66-71). -/
structure PriceDrop where
  date : String
  old_price : ℚ
  new_price : ℚ
  drop_percentage : ℚ
deriving DecidableEq

/-- The loop body of the price-drop scan
(src/pages/ProductDetail.tsx:184-198): for each consecutive pair keep
the drop when the newer price is lower and the drop percentage is at
least 5. -/
def dropsOfPairs (history : List PricePoint) : List PriceDrop :=
  (history.zip history.tail).filterMap (fun p =>
    let prevPrice := p.1.price
    let currPrice := p.2.price
    if currPrice < prevPrice then
      let dropPercentage := ((prevPrice - currPrice) / prevPrice) * 100
      if 5 ≤ dropPercentage then
        some ⟨p.2.recorded_at, prevPrice, currPrice, dropPercentage⟩
      else none
    else none)

/-- `fetchProductData`'s price-drop computation
(src/pages/ProductDetail.tsx:182-200): runs only for histories with
more than one point and keeps the first 5 drops; otherwise the state
keeps its initial empty value. -/
def computePriceDrops (history : List PricePoint) : List PriceDrop :=
  if 1 < history.length then (dropsOfPairs history).take 5 else []

end ProductDetail

namespace Sentiment

/-- The three-way sentiment taxonomy produced by `mapLabel` of
`useSentimentAnalyzer` (src hook, part_001:10-15). -/
inductive SentLabel where
  | POSITIVE
  | NEUTRAL
  | NEGATIVE
deriving DecidableEq

/-- A classifier result after label mapping (`SentimentResult`,
part_001:4-7). -/
structure SentimentResult where
  label : SentLabel
  score : ℚ
deriving DecidableEq

/-- Contribution of one classified text to the running signed sum of
the sentiment useEffect (src/pages/ProductDetail.tsx:618-623):
`+score` for a positive label, `-score` for a negative one, nothing
for neutral. -/
def contribution (r : SentimentResult) : ℚ :=
  match r.label with
  | SentLabel.POSITIVE => r.score
  | SentLabel.NEGATIVE => -r.score
  | SentLabel.NEUTRAL => 0

/-- The accumulated `sum` of the sentiment useEffect. -/
def signedSum (results : List SentimentResult) : ℚ :=
  (results.map contribution).sum

/-- `avgScore` of the sentiment useEffect
(src/pages/ProductDetail.tsx:624): `(sum / count + 1) / 2`, with the
0.5 fallback the code writes for a zero count. -/
def aggregateScore (textsLen : ℕ) (results : List SentimentResult) : ℚ :=
  if textsLen ≠ 0 then (signedSum results / textsLen + 1) / 2 else 1 / 2

/-- `overall` of the sentiment useEffect
(src/pages/ProductDetail.tsx:625). -/
def overallLabel (avgScore : ℚ) : String :=
  if 3 / 5 < avgScore then "Positive"
  else if avgScore < 2 / 5 then "Negative"
  else "Neutral"

/-- Count of results carrying a given label (the `pos`/`neg`/`neu`
counters of the useEffect). -/
def countLabel (lbl : SentLabel) (results : List SentimentResult) : ℕ :=
  (results.filter (fun r => r.label = lbl)).length

/-- The example-quote collection of the useEffect: up to two texts per
polarity, in encounter order. -/
def collectExamples (pairs : List (SentimentResult × String)) :
    List String × List String :=
  pairs.foldl (fun acc p =>
    match p.1.label with
    | SentLabel.POSITIVE =>
        if acc.1.length < 2 then (acc.1 ++ [p.2], acc.2) else acc
    | SentLabel.NEGATIVE =>
        if acc.2.length < 2 then (acc.1, acc.2 ++ [p.2]) else acc
    | SentLabel.NEUTRAL => acc) ([], [])

/-- The `sentimentSummary` state shape
(src/pages/ProductDetail.tsx:96-103). -/
structure SummaryState where
  positive : ℕ
  negative : ℕ
  neutral : ℕ
  avgScore : ℚ
  overall : String
  posExamples : List String
  negExamples : List String
deriving DecidableEq

/-- The summary object passed to `setSentimentSummary`
(src/pages/ProductDetail.tsx:626). -/
def summarize (texts : List String) (results : List SentimentResult) :
    SummaryState :=
  let avg := aggregateScore texts.length results
  let ex := collectExamples (results.zip texts)
  ⟨countLabel SentLabel.POSITIVE results,
   countLabel SentLabel.NEGATIVE results,
   countLabel SentLabel.NEUTRAL results,
   avg, overallLabel avg, ex.1, ex.2⟩

/-- The sentiment useEffect body (src/pages/ProductDetail.tsx:609-632)
as a state transformer. The classifier (`analyzeBatch` of the hook) is
an oracle parameter; the returned natural number counts how many times
it was invoked. Empty batches return before the classifier call and
leave the previous state untouched. -/
def sentimentEffect (reviews : List ProductDetail.ProductReview)
    (classify : List String → List SentimentResult)
    (prev : SummaryState) : ℕ × SummaryState :=
  let texts :=
    (((reviews.map (fun r => r.review_text)).filter (fun t => t != "")).take 20)
  if texts.length = 0 then (0, prev)
  else (1, summarize texts (classify texts))

end Sentiment

namespace AnalyzeFunction

/-- A review in the request body of the analyze-product edge function
(part_000:34-39): only the rating and text fields are read. -/
structure ServerReview where
  rating : ℚ
  review_text : String
deriving DecidableEq

/-- The parsed request body of the edge function (part_000:14-26):
product name, `product.current_price`, the prices extracted from
`priceHistory`, and the reviews. -/
structure AnalyzeRequest where
  name : String
  current_price : ℚ
  priceHistory : List ℚ
  reviews : List ServerReview
deriving DecidableEq

/-- `pricePosition` of the edge function (part_000:29-30), computed
independently of the client. -/
def pricePosition (currentPrice : ℚ) (prices : List ℚ) : ℚ :=
  let lowestPrice := listMin prices
  let highestPrice := listMax prices
  let priceRange := highestPrice - lowestPrice
  if 0 < priceRange then ((currentPrice - lowestPrice) / priceRange) * 100 else 50

/-- `worthBuyingScore` of the edge function (part_000:31): the rounded
inverted price position, with no clamping. -/
def worthBuyingScore (currentPrice : ℚ) (prices : List ℚ) : ℤ :=
  roundJS (100 - pricePosition currentPrice prices)

/-- The data interpolated into the upstream prompt (part_000:41-65),
kept as a record of the interpolated values rather than a formatted
string. -/
structure PromptData where
  name : String
  currentPrice : ℚ
  lowestPrice : ℚ
  highestPrice : ℚ
  avgPrice : ℚ
  pricePosition : ℚ
  avgRating : ℚ
  positiveCount : ℕ
  negativeCount : ℕ
  positiveSamples : List String
  negativeSamples : List String
deriving DecidableEq

/-- Prompt construction of the edge function (part_000:22-65): price
statistics, the average rating (0 when no reviews), the rating-≥-4 /
rating-<-4 partition and up to 3 positive and 2 negative excerpts. -/
def buildPrompt (req : AnalyzeRequest) : PromptData :=
  let prices := req.priceHistory
  let avgPriceVal := prices.sum / prices.length
  let avgRatingVal :=
    if 0 < req.reviews.length then
      (req.reviews.map (fun r => r.rating)).sum / req.reviews.length
    else 0
  let positiveReviews := req.reviews.filter (fun r => 4 ≤ r.rating)
  let negativeReviews := req.reviews.filter (fun r => r.rating < 4)
  ⟨req.name, req.current_price, listMin prices, listMax prices, avgPriceVal,
   pricePosition req.current_price prices, avgRatingVal,
   positiveReviews.length, negativeReviews.length,
   (positiveReviews.take 3).map (fun r => r.review_text),
   (negativeReviews.take 2).map (fun r => r.review_text)⟩

/-- The upstream gateway's reply to the single fetch (part_000:67-83):
its HTTP status and the `choices[0].message.content` text. -/
structure UpstreamResp where
  status : ℕ
  content : String
deriving DecidableEq

/-- `Response.ok` of the fetch API: status in the 200-299 range. -/
def respOk (r : UpstreamResp) : Bool :=
  decide (200 ≤ r.status) && decide (r.status ≤ 299)

/-- Substring test (JavaScript `String.prototype.includes`). -/
def containsSub (s pat : String) : Bool := 1 < (s.splitOn pat).length

/-- Accumulator of the line scan of the edge function's response
parser (part_000:108-133). -/
structure ParseState where
  summary : String
  detailed : String
  inSummary : Bool
  inDetailed : Bool
deriving DecidableEq

/-- One iteration of the line scan (part_000:115-133): marker lines
flip the section flags and are skipped, other lines are appended to
the active section. -/
def parseLine (st : ParseState) (line : String) : ParseState :=
  if containsSub line "summary" || containsSub line "Summary" ||
      line.startsWith "1." then
    ⟨st.summary, st.detailed, true, false⟩
  else if containsSub line "detailed" || containsSub line "Detailed" ||
      containsSub line "recommendation" || line.startsWith "2." then
    ⟨st.summary, st.detailed, false, true⟩
  else
    let s := if st.inSummary && line.trim != "" then
      st.summary ++ line.trim ++ " " else st.summary
    let d := if st.inDetailed && line.trim != "" then
      st.detailed ++ line.trim ++ " " else st.detailed
    ⟨s, d, st.inSummary, st.inDetailed⟩

/-- The free-text splitter of the edge function (part_000:107-140):
marker-based line scan with a blank-line-paragraph fallback when
either piece comes out empty. -/
def parseAnalysis (text : String) : String × String :=
  let lines := (text.splitOn "\n").filter (fun l => l.trim != "")
  let st := lines.foldl parseLine ⟨"", "", false, false⟩
  if st.summary = "" ∨ st.detailed = "" then
    let parts := text.splitOn "\n\n"
    let s := parts.getD 0 ""
    let s2 := if s = "" then text.take 200 else s
    let d := parts.getD 1 ""
    let d2 := if d = "" then text.drop 200 else d
    (s2, d2)
  else (st.summary, st.detailed)

/-- A response of the edge function: the success JSON body
(part_000:142-150) or an error body with its HTTP status
(part_000:85-101, 152-158). -/
inductive HandlerResponse where
  | success (worthBuyingScore : ℤ) (summary : String)
      (detailedRecommendation : String) (analysisText : String)
  | failure (status : ℕ) (error : String)
deriving DecidableEq

/-- The serve handler of the edge function (part_000:8-159) for a
parsed POST body. `apiKey` is the `LOVABLE_API_KEY` environment value;
`upstream` maps the prompt sent to the gateway to the gateway's reply.
The second component counts upstream fetches: the code contains a
single un-retried fetch, reached only when the key is configured. -/
def handler (apiKey : Option String) (req : AnalyzeRequest)
    (upstream : PromptData → UpstreamResp) : HandlerResponse × ℕ :=
  match apiKey with
  | none => (HandlerResponse.failure 500 "LOVABLE_API_KEY is not configured", 0)
  | some _ =>
    let score := worthBuyingScore req.current_price req.priceHistory
    let resp := upstream (buildPrompt req)
    if respOk resp then
      let parsed := parseAnalysis resp.content
      (HandlerResponse.success score parsed.1.trim parsed.2.trim resp.content, 1)
    else if resp.status = 429 then
      (HandlerResponse.failure 429 "Rate limit exceeded. Please try again later.", 1)
    else if resp.status = 402 then
      (HandlerResponse.failure 402 "AI credits exhausted. Please add credits to continue.", 1)
    else
      (HandlerResponse.failure 500 "AI analysis failed", 1)

/-- The `worthBuyingScore` field of a response, when the response is
successful. -/
def getScore : HandlerResponse → Option ℤ
  | HandlerResponse.success s _ _ _ => some s
  | HandlerResponse.failure _ _ => none

end AnalyzeFunction

namespace SpecSide

/-- Modelled from the spec (§4.2 step 4): the trend adjustment as the
specification states it, `+10` for a falling slope, `-5` for a rising
one, `0` otherwise. -/
def trendAdjustment (t : ℚ) : ℤ :=
  if t < 0 then 10 else if 0 < t then -5 else 0

/-- Modelled from the spec (§4.1): the ordinary least-squares slope of
a value sequence against its index, written with index sums. -/
def olsSlope (ys : List ℚ) : ℚ :=
  let n : ℚ := ys.length
  let xMean : ℚ := (n - 1) / 2
  let yMean : ℚ := ys.sum / n
  (((List.range ys.length).map
      (fun (i : ℕ) => ((i : ℚ) - xMean) * (ys.getD i 0 - yMean))).sum) /
  (((List.range ys.length).map (fun (i : ℕ) => ((i : ℚ) - xMean) ^ 2)).sum)

/-- Modelled from the spec (§4.1, glossary): the coefficient of
variation, standard deviation of prices divided by average price. -/
noncomputable def coefficientOfVariation (prices : List ℚ) : ℝ :=
  ProductDetail.stdDev prices / ((ProductDetail.avgPrice prices : ℚ) : ℝ)

end SpecSide

section Helpers

/-- Element-wise bounds on a list of rationals bound its sum by the
bounds times the length. -/
theorem list_sum_bounds (l : List ℚ) (a b : ℚ)
    (h : ∀ x ∈ l, a ≤ x ∧ x ≤ b) :
    a * l.length ≤ l.sum ∧ l.sum ≤ b * l.length := by
  induction l with
  | nil => simp
  | cons x xs ih =>
    have hx := h x (List.mem_cons_self x xs)
    have ihs := ih (fun y hy => h y (List.mem_cons_of_mem x hy))
    simp only [List.sum_cons, List.length_cons]
    push_cast
    constructor
    · nlinarith [ihs.1, hx.1]
    · nlinarith [ihs.2, hx.2]

/-- The mean of a non-empty list lies between element-wise bounds. -/
theorem avg_bounds (l : List ℚ) (a b : ℚ) (hne : l ≠ [])
    (h : ∀ x ∈ l, a ≤ x ∧ x ≤ b) :
    a ≤ l.sum / l.length ∧ l.sum / l.length ≤ b := by
  have hlen : 0 < (l.length : ℚ) := by
    have := List.length_pos.mpr hne
    exact_mod_cast this
  have hs := list_sum_bounds l a b h
  constructor
  · rw [le_div_iff₀ hlen]
    exact hs.1
  · rw [div_le_iff₀ hlen]
    exact hs.2

/-- Adding an integer commutes with JavaScript rounding. -/
theorem roundJS_add_int (x : ℚ) (k : ℤ) :
    roundJS (x + (k : ℚ)) = roundJS x + k := by
  unfold roundJS
  rw [add_right_comm, Int.floor_add_int]

/-- JavaScript rounding is monotone. -/
theorem roundJS_mono {x y : ℚ} (h : x ≤ y) : roundJS x ≤ roundJS y :=
  Int.floor_le_floor (by linarith)

/-- JavaScript rounding of an integer-valued rational. -/
theorem roundJS_intCast (k : ℤ) : roundJS (k : ℚ) = k := by
  unfold roundJS
  rw [add_comm, Int.floor_add_int]
  norm_num

/-- The clamp `max 5 (min 95 s)` always lands in `[5, 95]`. -/
theorem clamp_mem (s : ℤ) : 5 ≤ max 5 (min 95 s) ∧ max 5 (min 95 s) ≤ 95 :=
  ⟨le_max_left _ _, max_le (by norm_num) (min_le_left _ _)⟩

/-- The clamp is the identity on values already in `[5, 95]`. -/
theorem clamp_id {s : ℤ} (h5 : 5 ≤ s) (h95 : s ≤ 95) :
    max 5 (min 95 s) = s := by
  rw [min_eq_right h95, max_eq_right h5]

/-- A sum over an enumerated list equals the corresponding sum over
index positions. -/
theorem enumFrom_map_sum (f : ℕ → ℚ → ℚ) (l : List ℚ) :
    ∀ k : ℕ, ((l.enumFrom k).map (fun p => f p.1 p.2)).sum
      = ((List.range l.length).map (fun i => f (k + i) (l.getD i 0))).sum := by
  induction l with
  | nil => intro k; simp
  | cons a t ih =>
    intro k
    simp only [List.enumFrom_cons, List.map_cons, List.sum_cons, ih (k + 1),
      List.length_cons, List.range_succ_eq_map, List.map_map]
    congr 1
    have hfun : (fun i => f (k + 1 + i) (t.getD i 0))
        = ((fun i => f (k + i) ((a :: t).getD i 0)) ∘ Nat.succ) := by
      funext i
      simp only [Function.comp, List.getD_cons_succ]
      congr 1
      omega
    rw [hfun]

/-- The enumerated form specialised to enumeration from zero. -/
theorem enum_map_sum (f : ℕ → ℚ → ℚ) (l : List ℚ) :
    ((l.enum).map (fun p => f p.1 p.2)).sum
      = ((List.range l.length).map (fun i => f i (l.getD i 0))).sum := by
  have := enumFrom_map_sum f l 0
  simpa [List.enum] using this

/-- The least-squares denominator over at least two index positions is
positive. -/
theorem ols_den_pos (n : ℕ) (hn : 2 ≤ n) :
    0 < ((List.range n).map
      (fun (i : ℕ) => ((i : ℚ) - ((n : ℚ) - 1) / 2) ^ 2)).sum := by
  obtain ⟨m, rfl⟩ : ∃ m, n = m + 1 := ⟨n - 1, by omega⟩
  rw [List.range_succ_eq_map, List.map_cons, List.sum_cons, List.map_map]
  have hm : (1 : ℚ) ≤ (m : ℚ) := by
    have h1 : (1 : ℕ) ≤ m := by omega
    exact_mod_cast h1
  have h0 : (0 : ℚ) < ((0 : ℚ) - (((m : ℚ) + 1) - 1) / 2) ^ 2 := by
    have he : ((0 : ℚ) - (((m : ℚ) + 1) - 1) / 2) ^ 2 = ((m : ℚ) / 2) ^ 2 := by
      ring
    rw [he]
    have hp : (0 : ℚ) < (m : ℚ) / 2 := by linarith
    positivity
  have hrest : (0 : ℚ) ≤ ((List.range m).map
      ((fun (i : ℕ) => ((i : ℚ) - (((m : ℚ) + 1) - 1) / 2) ^ 2) ∘ Nat.succ)).sum := by
    apply List.sum_nonneg
    intro x hx
    obtain ⟨i, _, rfl⟩ := List.mem_map.mp hx
    exact sq_nonneg _
  push_cast at h0 hrest ⊢
  linarith

/-- The average rating stays between rating bounds, and is 3 for an
empty review list. -/
theorem avgRating_bounds (reviews : List ProductDetail.ProductReview)
    (hr : ∀ r ∈ reviews, 1 ≤ r.rating ∧ r.rating ≤ 5) :
    1 ≤ ProductDetail.avgRating reviews ∧ ProductDetail.avgRating reviews ≤ 5 := by
  unfold ProductDetail.avgRating
  rcases reviews with _ | ⟨r0, rest⟩
  · norm_num
  · rw [if_pos (by simp), show ((r0 :: rest).length)
      = ((r0 :: rest).map (fun r => r.rating)).length by simp]
    apply avg_bounds
    · simp
    · intro x hx
      obtain ⟨r, hmem, rfl⟩ := List.mem_map.mp hx
      exact hr r hmem

/-- The review bonus stays within `[-15, 15]` for rating values in
`[1, 5]`. -/
theorem reviewBonus_bounds (reviews : List ProductDetail.ProductReview)
    (hr : ∀ r ∈ reviews, 1 ≤ r.rating ∧ r.rating ≤ 5) :
    -15 ≤ ProductDetail.reviewBonus reviews ∧
      ProductDetail.reviewBonus reviews ≤ 15 := by
  have h := avgRating_bounds reviews hr
  unfold ProductDetail.reviewBonus
  constructor <;> nlinarith [h.1, h.2]

/-- The client score is the clamp of the rounded sum of base score,
review bonus and the specification's trend adjustment: rounding before
or after adding the integral adjustment makes no difference. -/
theorem worthBuyingScore_eq_clamp (currentPrice : ℚ) (prices : List ℚ)
    (reviews : List ProductDetail.ProductReview) :
    ProductDetail.worthBuyingScore currentPrice prices reviews =
      max 5 (min 95 (roundJS (100 - ProductDetail.pricePosition currentPrice prices
        + ProductDetail.reviewBonus reviews
        + (SpecSide.trendAdjustment (ProductDetail.trendSlope prices) : ℚ)))) := by
  unfold ProductDetail.worthBuyingScore SpecSide.trendAdjustment
  rcases lt_trichotomy (ProductDetail.trendSlope prices) 0 with h | h | h
  · simp only [if_pos h, if_neg (not_lt.mpr (le_of_lt h))]
    rw [roundJS_add_int]
  · simp only [h, lt_irrefl, if_false, if_neg (lt_irrefl (0 : ℚ))]
    norm_num [roundJS]
  · simp only [if_neg (not_lt.mpr (le_of_lt h)), if_pos h]
    rw [show (100 - ProductDetail.pricePosition currentPrice prices
        + ProductDetail.reviewBonus reviews + ((-5 : ℤ) : ℚ))
      = (100 - ProductDetail.pricePosition currentPrice prices
        + ProductDetail.reviewBonus reviews) + ((-5 : ℤ) : ℚ) by ring]
    rw [roundJS_add_int]
    simp [sub_eq_add_neg]

/-- The guarded fold of `trendSlope` equals the specification's
least-squares slope over the 14-point window, with the sub-three-point
cutoff. -/
theorem trendSlope_eq_ols (prices : List ℚ) :
    ProductDetail.trendSlope prices =
      if (lastN 14 prices).length < 3 then 0
      else SpecSide.olsSlope (lastN 14 prices) := by
  by_cases h : 2 < (lastN 14 prices).length
  · rw [if_neg (by omega)]
    unfold ProductDetail.trendSlope SpecSide.olsSlope
    simp only [if_pos h]
    rw [enum_map_sum (fun i y =>
      ((i : ℚ) - (((lastN 14 prices).length : ℚ) - 1) / 2)
        * (y - (lastN 14 prices).sum / ((lastN 14 prices).length : ℚ)))]
    rw [enum_map_sum (fun i _ =>
      ((i : ℚ) - (((lastN 14 prices).length : ℚ) - 1) / 2) ^ 2)]
    have hden := ols_den_pos (lastN 14 prices).length (by omega)
    rw [if_pos (ne_of_gt hden)]
  · rw [if_pos (by omega)]
    unfold ProductDetail.trendSlope
    simp only [if_neg h]

end Helpers

section Claims

/-- Claim C1 (amended): every client-side Smart Price Analysis score
lies within [5, 95]; the Remote Analysis Proxy's worthBuyingScore, in
contrast, is the unclamped rounded inverted price position and can
leave that interval, reaching 100 when the current price equals the
lowest of a non-constant history. -/
theorem c1_score_bounds :
    (∀ (currentPrice : ℚ) (prices : List ℚ)
        (reviews : List ProductDetail.ProductReview),
      5 ≤ ProductDetail.worthBuyingScore currentPrice prices reviews ∧
        ProductDetail.worthBuyingScore currentPrice prices reviews ≤ 95) ∧
    AnalyzeFunction.worthBuyingScore 100 [100, 200] = 100 := by
  constructor
  · intro currentPrice prices reviews
    unfold ProductDetail.worthBuyingScore
    exact clamp_mem _
  · norm_num [AnalyzeFunction.worthBuyingScore, AnalyzeFunction.pricePosition,
      listMin, listMax, roundJS]

/-- Claim C1 counterexample: a successful Remote Analysis Proxy
response for current price 100 and history [100, 200] carries
worthBuyingScore 100, outside [5, 95]. -/
theorem c1_counterexample :
    AnalyzeFunction.getScore
      (AnalyzeFunction.handler (some "key") ⟨"p", 100, [100, 200], []⟩
        (fun _ => ⟨200, "ok"⟩)).1 = some 100 ∧
    ¬ ((100 : ℤ) ≤ 95) := by
  constructor
  · norm_num [AnalyzeFunction.handler, AnalyzeFunction.getScore,
      AnalyzeFunction.respOk, AnalyzeFunction.worthBuyingScore,
      AnalyzeFunction.pricePosition, listMin, listMax, roundJS]
  · norm_num

/-- Claim C2: for every non-empty price history and review set with
ratings in [1, 5], the client score is
clamp(round((100 - pricePosition) + reviewBonus + trendAdjustment), 5, 95),
the review bonus is ((avgRating - 3) / 2) * 15 with default rating 3
on an empty review set and range [-15, 15], and the trend adjustment
is +10 for a falling slope, -5 for a rising one, 0 otherwise. -/
theorem c2_score_formula (currentPrice : ℚ) (prices : List ℚ)
    (reviews : List ProductDetail.ProductReview)
    (hne : prices ≠ [])
    (hr : ∀ r ∈ reviews, 1 ≤ r.rating ∧ r.rating ≤ 5) :
    ProductDetail.worthBuyingScore currentPrice prices reviews =
      max 5 (min 95 (roundJS (100 - ProductDetail.pricePosition currentPrice prices
        + ProductDetail.reviewBonus reviews
        + (SpecSide.trendAdjustment (ProductDetail.trendSlope prices) : ℚ)))) ∧
    ProductDetail.reviewBonus reviews =
      ((ProductDetail.avgRating reviews - 3) / 2) * 15 ∧
    (reviews = [] → ProductDetail.avgRating reviews = 3) ∧
    (-15 ≤ ProductDetail.reviewBonus reviews ∧
      ProductDetail.reviewBonus reviews ≤ 15) ∧
    (ProductDetail.trendSlope prices < 0 →
      SpecSide.trendAdjustment (ProductDetail.trendSlope prices) = 10) ∧
    (0 < ProductDetail.trendSlope prices →
      SpecSide.trendAdjustment (ProductDetail.trendSlope prices) = -5) ∧
    (ProductDetail.trendSlope prices = 0 →
      SpecSide.trendAdjustment (ProductDetail.trendSlope prices) = 0) := by
  refine ⟨worthBuyingScore_eq_clamp currentPrice prices reviews, rfl, ?_, ?_, ?_, ?_, ?_⟩
  · intro h
    simp [ProductDetail.avgRating, h]
  · exact reviewBonus_bounds reviews hr
  · intro h
    simp [SpecSide.trendAdjustment, h]
  · intro h
    simp [SpecSide.trendAdjustment, if_neg (not_lt.mpr (le_of_lt h)), h]
  · intro h
    simp [SpecSide.trendAdjustment, h]

/-- Claim C2 witness: the formula evaluated at a concrete input. -/
theorem c2_witness :
    ([100, 200] : List ℚ) ≠ [] ∧
    (∀ r ∈ [(⟨"r1", "u", 5, "good", "t", 0⟩ : ProductDetail.ProductReview)],
      1 ≤ r.rating ∧ r.rating ≤ 5) ∧
    (ProductDetail.worthBuyingScore 100 [100, 200]
        [⟨"r1", "u", 5, "good", "t", 0⟩] =
      max 5 (min 95 (roundJS (100 - ProductDetail.pricePosition 100 [100, 200]
        + ProductDetail.reviewBonus [⟨"r1", "u", 5, "good", "t", 0⟩]
        + (SpecSide.trendAdjustment (ProductDetail.trendSlope [100, 200]) : ℚ))))) :=
  ⟨by decide, by decide,
    (c2_score_formula 100 [100, 200] [⟨"r1", "u", 5, "good", "t", 0⟩]
      (by decide) (by decide)).1⟩

/-- Claim C5: when the minimum of the history equals its maximum, both
the client scorer and the Remote Analysis Proxy give price position 50
through the zero-range branch, never the division. -/
theorem c5_zero_range (currentPrice : ℚ) (prices : List ℚ)
    (hne : prices ≠ []) (h : listMin prices = listMax prices) :
    ProductDetail.pricePosition currentPrice prices = 50 ∧
    AnalyzeFunction.pricePosition currentPrice prices = 50 := by
  constructor
  · unfold ProductDetail.pricePosition
    rw [h]
    simp
  · unfold AnalyzeFunction.pricePosition
    rw [h]
    simp

/-- Claim C5 witness: the zero-range branch at a concrete constant
history. -/
theorem c5_witness :
    ([7, 7] : List ℚ) ≠ [] ∧ listMin [7, 7] = listMax [7, 7] ∧
    (ProductDetail.pricePosition 7 [7, 7] = 50 ∧
      AnalyzeFunction.pricePosition 7 [7, 7] = 50) :=
  ⟨by decide, by decide, c5_zero_range 7 [7, 7] (by decide) (by decide)⟩

end Claims

/-- Claim C3 (amended): on the constant history [100,100,100,100,100]
with current price 100 the trend slope and volatility are 0, and for
every review set with ratings in [1, 5] the recommendation tier is
"fair deal" or "wait", decided by the review bonus alone; the score is
clamp(round(50 + reviewBonus)) ∈ [35, 65], so the "strong buy" tier is
unreachable here. -/
theorem c3_constant_history (reviews : List ProductDetail.ProductReview)
    (hr : ∀ r ∈ reviews, 1 ≤ r.rating ∧ r.rating ≤ 5) :
    ProductDetail.trendSlope [100, 100, 100, 100, 100] = 0 ∧
    ProductDetail.volatility [100, 100, 100, 100, 100] = 0 ∧
    (ProductDetail.tierOf
        (ProductDetail.worthBuyingScore 100 [100, 100, 100, 100, 100] reviews)
          = ProductDetail.Tier.fairDeal ∨
      ProductDetail.tierOf
        (ProductDetail.worthBuyingScore 100 [100, 100, 100, 100, 100] reviews)
          = ProductDetail.Tier.wait) := by
  have hts : ProductDetail.trendSlope [100, 100, 100, 100, 100] = 0 := by
    norm_num [ProductDetail.trendSlope, lastN, List.enum]
  have hvol : ProductDetail.volatility [100, 100, 100, 100, 100] = 0 := by
    have hv : ((([100, 100, 100, 100, 100] : List ℚ).map
        (fun p => (p - ProductDetail.avgPrice [100, 100, 100, 100, 100]) ^ 2)).sum
          / ([100, 100, 100, 100, 100] : List ℚ).length : ℚ) = 0 := by
      norm_num [ProductDetail.avgPrice]
    unfold ProductDetail.volatility ProductDetail.stdDev
    rw [hv]
    simp
  refine ⟨hts, hvol, ?_⟩
  have hpp : ProductDetail.pricePosition 100 [100, 100, 100, 100, 100] = 50 := by
    norm_num [ProductDetail.pricePosition, listMin, listMax]
  have hscore := worthBuyingScore_eq_clamp 100 [100, 100, 100, 100, 100] reviews
  rw [hts, hpp] at hscore
  have harg : (100 - (50 : ℚ) + ProductDetail.reviewBonus reviews
      + ((SpecSide.trendAdjustment 0 : ℤ) : ℚ))
      = 50 + ProductDetail.reviewBonus reviews := by
    norm_num [SpecSide.trendAdjustment]
  rw [harg] at hscore
  have hb := reviewBonus_bounds reviews hr
  have h35 : (35 : ℤ) ≤ roundJS (50 + ProductDetail.reviewBonus reviews) := by
    have hm : roundJS (35 : ℚ) ≤ roundJS (50 + ProductDetail.reviewBonus reviews) :=
      roundJS_mono (by linarith [hb.1])
    have h35v : roundJS (35 : ℚ) = 35 := by norm_num [roundJS]
    omega
  have h65 : roundJS (50 + ProductDetail.reviewBonus reviews) ≤ 65 := by
    have hm : roundJS (50 + ProductDetail.reviewBonus reviews) ≤ roundJS (65 : ℚ) :=
      roundJS_mono (by linarith [hb.2])
    have h65v : roundJS (65 : ℚ) = 65 := by norm_num [roundJS]
    omega
  rw [hscore, clamp_id (by omega) (by omega)]
  unfold ProductDetail.tierOf
  rw [if_neg (by omega)]
  by_cases h40 : 40 ≤ roundJS (50 + ProductDetail.reviewBonus reviews)
  · left
    rw [if_pos h40]
  · right
    rw [if_neg h40]

/-- Claim C3 counterexample: with a single 1-star review on the
constant history the score is 35 and the tier is "wait", neither
"fair deal" nor "strong buy" as the claim states. -/
theorem c3_counterexample :
    ProductDetail.tierOf
      (ProductDetail.worthBuyingScore 100 [100, 100, 100, 100, 100]
        [⟨"r1", "u", 1, "bad", "t", 0⟩]) = ProductDetail.Tier.wait ∧
    ProductDetail.Tier.wait ≠ ProductDetail.Tier.fairDeal ∧
    ProductDetail.Tier.wait ≠ ProductDetail.Tier.strongBuy := by
  refine ⟨?_, by decide, by decide⟩
  have hs : ProductDetail.worthBuyingScore 100 [100, 100, 100, 100, 100]
      [⟨"r1", "u", 1, "bad", "t", 0⟩] = 35 := by
    norm_num [ProductDetail.worthBuyingScore, ProductDetail.pricePosition,
      ProductDetail.reviewBonus, ProductDetail.avgRating,
      ProductDetail.trendSlope, lastN, List.enum, listMin, listMax, roundJS]
  rw [hs]
  norm_num [ProductDetail.tierOf]

/-- Claim C3 witness: the amended statement at a concrete review set. -/
theorem c3_witness :
    (∀ r ∈ [(⟨"r1", "u", 4, "nice", "t", 0⟩ : ProductDetail.ProductReview)],
      1 ≤ r.rating ∧ r.rating ≤ 5) ∧
    (ProductDetail.trendSlope [100, 100, 100, 100, 100] = 0 ∧
      ProductDetail.volatility [100, 100, 100, 100, 100] = 0 ∧
      (ProductDetail.tierOf
          (ProductDetail.worthBuyingScore 100 [100, 100, 100, 100, 100]
            [⟨"r1", "u", 4, "nice", "t", 0⟩]) = ProductDetail.Tier.fairDeal ∨
        ProductDetail.tierOf
          (ProductDetail.worthBuyingScore 100 [100, 100, 100, 100, 100]
            [⟨"r1", "u", 4, "nice", "t", 0⟩]) = ProductDetail.Tier.wait)) :=
  ⟨by decide, c3_constant_history [⟨"r1", "u", 4, "nice", "t", 0⟩] (by decide)⟩

/-- Claim C4 (amended): for every non-empty price history the client's
volatility equals the coefficient of variation multiplied by 100 (a
percentage, not the bare ratio), is 0 for a single-point history, and
the trend slope is the ordinary least-squares slope of price against
index over the most recent at-most-14 points, 0 when fewer than 3
points are available. -/
theorem c4_price_statistics (prices : List ℚ) (hne : prices ≠ []) :
    ProductDetail.volatility prices = SpecSide.coefficientOfVariation prices * 100 ∧
    (prices.length = 1 → ProductDetail.volatility prices = 0) ∧
    ProductDetail.trendSlope prices =
      (if (lastN 14 prices).length < 3 then 0
       else SpecSide.olsSlope (lastN 14 prices)) := by
  refine ⟨rfl, ?_, trendSlope_eq_ols prices⟩
  intro hlen
  obtain ⟨p, rfl⟩ := List.length_eq_one.mp hlen
  have hv : ((([p] : List ℚ).map
      (fun q => (q - ProductDetail.avgPrice [p]) ^ 2)).sum
        / ([p] : List ℚ).length : ℚ) = 0 := by
    simp [ProductDetail.avgPrice]
  unfold ProductDetail.volatility ProductDetail.stdDev
  rw [hv]
  simp

/-- Claim C4 counterexample: for the history [100, 200] the code's
volatility is 100/3 while the coefficient of variation is 1/3, so the
two are not equal as the claim states. -/
theorem c4_counterexample :
    ProductDetail.volatility [100, 200] = 100 / 3 ∧
    SpecSide.coefficientOfVariation [100, 200] = 1 / 3 ∧
    ((100 : ℝ) / 3 ≠ 1 / 3) := by
  have hv : ((([100, 200] : List ℚ).map
      (fun p => (p - ProductDetail.avgPrice [100, 200]) ^ 2)).sum
        / ([100, 200] : List ℚ).length : ℚ) = 2500 := by
    norm_num [ProductDetail.avgPrice]
  have h50 : Real.sqrt ((2500 : ℚ) : ℝ) = 50 := by
    rw [show ((2500 : ℚ) : ℝ) = (50 : ℝ) ^ 2 by norm_num]
    exact Real.sqrt_sq (by norm_num)
  refine ⟨?_, ?_, by norm_num⟩
  · unfold ProductDetail.volatility ProductDetail.stdDev
    rw [hv, h50]
    norm_num [ProductDetail.avgPrice]
  · unfold SpecSide.coefficientOfVariation ProductDetail.stdDev
    rw [hv, h50]
    norm_num [ProductDetail.avgPrice]

/-- Claim C4 witness: the amended statistics facts at a concrete
history. -/
theorem c4_witness :
    ([100, 200] : List ℚ) ≠ [] ∧
    (ProductDetail.volatility [100, 200] =
        SpecSide.coefficientOfVariation [100, 200] * 100 ∧
      (([100, 200] : List ℚ).length = 1 →
        ProductDetail.volatility [100, 200] = 0) ∧
      ProductDetail.trendSlope [100, 200] =
        (if (lastN 14 [100, 200]).length < 3 then 0
         else SpecSide.olsSlope (lastN 14 [100, 200]))) :=
  ⟨by decide, c4_price_statistics [100, 200] (by decide)⟩

/-- Claim C6: for every non-empty batch of at most 20 texts whose
classifier scores lie in [0, 1], the aggregate is (sum/count + 1)/2
for the signed sum, lies in [0, 1], the overall label follows the
0.6 / 0.4 thresholds, an all-positive batch with unit scores yields
aggregate 1 and an all-negative one yields 0. -/
theorem c6_sentiment_aggregate (texts : List String)
    (results : List Sentiment.SentimentResult)
    (hlen : results.length = texts.length) (hne : texts ≠ [])
    (h20 : texts.length ≤ 20)
    (hs : ∀ r ∈ results, 0 ≤ r.score ∧ r.score ≤ 1) :
    Sentiment.aggregateScore texts.length results
      = (Sentiment.signedSum results / texts.length + 1) / 2 ∧
    (0 ≤ Sentiment.aggregateScore texts.length results ∧
      Sentiment.aggregateScore texts.length results ≤ 1) ∧
    (3 / 5 < Sentiment.aggregateScore texts.length results →
      Sentiment.overallLabel (Sentiment.aggregateScore texts.length results)
        = "Positive") ∧
    (Sentiment.aggregateScore texts.length results < 2 / 5 →
      Sentiment.overallLabel (Sentiment.aggregateScore texts.length results)
        = "Negative") ∧
    (2 / 5 ≤ Sentiment.aggregateScore texts.length results →
      Sentiment.aggregateScore texts.length results ≤ 3 / 5 →
      Sentiment.overallLabel (Sentiment.aggregateScore texts.length results)
        = "Neutral") ∧
    ((∀ r ∈ results, r.label = Sentiment.SentLabel.POSITIVE ∧ r.score = 1) →
      Sentiment.aggregateScore texts.length results = 1) ∧
    ((∀ r ∈ results, r.label = Sentiment.SentLabel.NEGATIVE ∧ r.score = 1) →
      Sentiment.aggregateScore texts.length results = 0) := by
  have hn0 : texts.length ≠ 0 := by
    simpa [List.length_eq_zero] using hne
  have hnq : (0 : ℚ) < (texts.length : ℚ) := by
    have : 0 < texts.length := Nat.pos_of_ne_zero hn0
    exact_mod_cast this
  have hagg : Sentiment.aggregateScore texts.length results
      = (Sentiment.signedSum results / texts.length + 1) / 2 := by
    unfold Sentiment.aggregateScore
    rw [if_pos hn0]
  have hmaplen : (results.map Sentiment.contribution).length = texts.length := by
    rw [List.length_map, hlen]
  have hsum : -1 * ((texts.length : ℚ)) ≤ Sentiment.signedSum results ∧
      Sentiment.signedSum results ≤ 1 * ((texts.length : ℚ)) := by
    have hb := list_sum_bounds (results.map Sentiment.contribution) (-1) 1 ?_
    · unfold Sentiment.signedSum
      rw [hmaplen] at hb
      exact hb
    · intro x hx
      obtain ⟨r, hmem, rfl⟩ := List.mem_map.mp hx
      have hr := hs r hmem
      unfold Sentiment.contribution
      rcases r with ⟨lbl, sc⟩
      rcases lbl <;> constructor <;> simp at hr ⊢ <;> linarith [hr.1, hr.2]
  have hdivlo : (-1 : ℚ) ≤ Sentiment.signedSum results / texts.length := by
    rw [le_div_iff₀ hnq]
    linarith [hsum.1]
  have hdivhi : Sentiment.signedSum results / (texts.length : ℚ) ≤ 1 := by
    rw [div_le_iff₀ hnq]
    linarith [hsum.2]
  refine ⟨hagg, ⟨by rw [hagg]; linarith, by rw [hagg]; linarith⟩, ?_, ?_, ?_, ?_, ?_⟩
  · intro h
    unfold Sentiment.overallLabel
    rw [if_pos h]
  · intro h
    unfold Sentiment.overallLabel
    rw [if_neg (by linarith), if_pos h]
  · intro h1 h2
    unfold Sentiment.overallLabel
    rw [if_neg (by linarith), if_neg (by linarith)]
  · intro hall
    have hconst : ∀ x ∈ results.map Sentiment.contribution, (1 : ℚ) ≤ x ∧ x ≤ 1 := by
      intro x hx
      obtain ⟨r, hmem, rfl⟩ := List.mem_map.mp hx
      have hr := hall r hmem
      unfold Sentiment.contribution
      rw [hr.1, hr.2]
      norm_num
    have hb := list_sum_bounds (results.map Sentiment.contribution) 1 1 hconst
    rw [hmaplen] at hb
    have hsumeq : Sentiment.signedSum results = (texts.length : ℚ) := by
      unfold Sentiment.signedSum
      linarith [hb.1, hb.2]
    rw [hagg, hsumeq, div_self (ne_of_gt hnq)]
    norm_num
  · intro hall
    have hconst : ∀ x ∈ results.map Sentiment.contribution,
        (-1 : ℚ) ≤ x ∧ x ≤ -1 := by
      intro x hx
      obtain ⟨r, hmem, rfl⟩ := List.mem_map.mp hx
      have hr := hall r hmem
      unfold Sentiment.contribution
      rw [hr.1, hr.2]
      norm_num
    have hb := list_sum_bounds (results.map Sentiment.contribution) (-1) (-1) hconst
    rw [hmaplen] at hb
    have hsumeq : Sentiment.signedSum results = -(texts.length : ℚ) := by
      unfold Sentiment.signedSum
      linarith [hb.1, hb.2]
    rw [hagg, hsumeq, neg_div, div_self (ne_of_gt hnq)]
    norm_num

/-- Claim C6 witness: the aggregate facts at a concrete one-element
batch. -/
theorem c6_witness :
    ([(⟨Sentiment.SentLabel.POSITIVE, 1⟩ : Sentiment.SentimentResult)].length
      = ["good"].length) ∧
    (["good"] : List String) ≠ [] ∧
    (["good"] : List String).length ≤ 20 ∧
    (∀ r ∈ [(⟨Sentiment.SentLabel.POSITIVE, 1⟩ : Sentiment.SentimentResult)],
      0 ≤ r.score ∧ r.score ≤ 1) ∧
    ((∀ r ∈ [(⟨Sentiment.SentLabel.POSITIVE, 1⟩ : Sentiment.SentimentResult)],
        r.label = Sentiment.SentLabel.POSITIVE ∧ r.score = 1) →
      Sentiment.aggregateScore (["good"] : List String).length
        [⟨Sentiment.SentLabel.POSITIVE, 1⟩] = 1) :=
  ⟨by decide, by decide, by decide, by decide,
    (c6_sentiment_aggregate ["good"] [⟨Sentiment.SentLabel.POSITIVE, 1⟩]
      (by decide) (by decide) (by decide) (by decide)).2.2.2.2.2.1⟩

/-- Claim C8: when the filtered, truncated batch of review texts is
empty, the sentiment effect invokes the classifier zero times and
returns the previous summary state unchanged. -/
theorem c8_empty_batch (reviews : List ProductDetail.ProductReview)
    (classify : List String → List Sentiment.SentimentResult)
    (prev : Sentiment.SummaryState)
    (h : (((reviews.map (fun r => r.review_text)).filter
        (fun t => t != "")).take 20) = []) :
    Sentiment.sentimentEffect reviews classify prev = (0, prev) := by
  unfold Sentiment.sentimentEffect
  rw [h]
  simp

/-- Claim C8 witness: the empty batch at a concrete blank-review
input. -/
theorem c8_witness :
    ((([(⟨"r1", "u", 4, "", "t", 0⟩ : ProductDetail.ProductReview)].map
        (fun r => r.review_text)).filter (fun t => t != "")).take 20) = [] ∧
    Sentiment.sentimentEffect [⟨"r1", "u", 4, "", "t", 0⟩]
      (fun _ => [⟨Sentiment.SentLabel.POSITIVE, 1⟩])
      ⟨3, 2, 1, 1 / 2, "Neutral", ["a"], ["b"]⟩
      = (0, ⟨3, 2, 1, 1 / 2, "Neutral", ["a"], ["b"]⟩) :=
  ⟨by decide,
    c8_empty_batch [⟨"r1", "u", 4, "", "t", 0⟩]
      (fun _ => [⟨Sentiment.SentLabel.POSITIVE, 1⟩])
      ⟨3, 2, 1, 1 / 2, "Neutral", ["a"], ["b"]⟩ (by decide)⟩

/-- Claim C7 (amended): the proxy maps an upstream 429 to a 429
rate-limit error, an upstream 402 to a 402 credits-exhausted error,
and any other non-OK status to a 500 with the thrown message, while a
missing LOVABLE_API_KEY yields a 500 before any upstream call; at most
one upstream request is ever made — exactly one whenever the key is
configured and none when it is missing. -/
theorem c7_error_mapping (k : String) (req : AnalyzeFunction.AnalyzeRequest)
    (up : AnalyzeFunction.PromptData → AnalyzeFunction.UpstreamResp) :
    AnalyzeFunction.handler none req up =
      (AnalyzeFunction.HandlerResponse.failure 500
        "LOVABLE_API_KEY is not configured", 0) ∧
    ((up (AnalyzeFunction.buildPrompt req)).status = 429 →
      AnalyzeFunction.handler (some k) req up =
        (AnalyzeFunction.HandlerResponse.failure 429
          "Rate limit exceeded. Please try again later.", 1)) ∧
    ((up (AnalyzeFunction.buildPrompt req)).status = 402 →
      AnalyzeFunction.handler (some k) req up =
        (AnalyzeFunction.HandlerResponse.failure 402
          "AI credits exhausted. Please add credits to continue.", 1)) ∧
    (AnalyzeFunction.respOk (up (AnalyzeFunction.buildPrompt req)) = false →
      (up (AnalyzeFunction.buildPrompt req)).status ≠ 429 →
      (up (AnalyzeFunction.buildPrompt req)).status ≠ 402 →
      AnalyzeFunction.handler (some k) req up =
        (AnalyzeFunction.HandlerResponse.failure 500 "AI analysis failed", 1)) ∧
    ((AnalyzeFunction.handler none req up).2 = 0 ∧
      (AnalyzeFunction.handler (some k) req up).2 = 1) := by
  refine ⟨rfl, ?_, ?_, ?_, rfl, ?_⟩
  · intro h
    simp [AnalyzeFunction.handler, AnalyzeFunction.respOk, h]
  · intro h
    simp [AnalyzeFunction.handler, AnalyzeFunction.respOk, h]
  · intro hok h429 h402
    simp [AnalyzeFunction.handler, hok, h429, h402]
  · unfold AnalyzeFunction.handler
    dsimp only
    split
    · rfl
    · split
      · rfl
      · split
        · rfl
        · rfl

/-- Claim C7 counterexample: with the API key missing the proxy fails
with a 500 while making zero upstream requests, refuting "exactly one
upstream request in every failure case". -/
theorem c7_counterexample :
    AnalyzeFunction.handler none ⟨"p", 100, [100, 200], []⟩
        (fun _ => ⟨200, "ok"⟩) =
      (AnalyzeFunction.HandlerResponse.failure 500
        "LOVABLE_API_KEY is not configured", 0) ∧
    (0 : ℕ) ≠ 1 :=
  ⟨rfl, by decide⟩

/-- Claim C7 witness: the 429 mapping at a concrete request. -/
theorem c7_witness :
    (((fun _ => (⟨429, ""⟩ : AnalyzeFunction.UpstreamResp))
        (AnalyzeFunction.buildPrompt ⟨"p", 100, [100, 200], []⟩)).status = 429) ∧
    AnalyzeFunction.handler (some "key") ⟨"p", 100, [100, 200], []⟩
        (fun _ => ⟨429, ""⟩) =
      (AnalyzeFunction.HandlerResponse.failure 429
        "Rate limit exceeded. Please try again later.", 1) :=
  ⟨rfl, (c7_error_mapping "key" ⟨"p", 100, [100, 200], []⟩
    (fun _ => ⟨429, ""⟩)).2.1 rfl⟩

/-- Claim C9: the proxy's worthBuyingScore does not depend on the
reviews in the request: two requests agreeing on current price and
price history but with arbitrary review lists receive, on success,
the same score, namely the score computed from the price data alone. -/
theorem c9_score_independent (k : String)
    (r1 r2 : AnalyzeFunction.AnalyzeRequest)
    (up1 up2 : AnalyzeFunction.PromptData → AnalyzeFunction.UpstreamResp)
    (hc : r1.current_price = r2.current_price)
    (hp : r1.priceHistory = r2.priceHistory)
    (h1 : AnalyzeFunction.respOk (up1 (AnalyzeFunction.buildPrompt r1)) = true)
    (h2 : AnalyzeFunction.respOk (up2 (AnalyzeFunction.buildPrompt r2)) = true) :
    AnalyzeFunction.getScore (AnalyzeFunction.handler (some k) r1 up1).1 =
      AnalyzeFunction.getScore (AnalyzeFunction.handler (some k) r2 up2).1 ∧
    AnalyzeFunction.getScore (AnalyzeFunction.handler (some k) r1 up1).1 =
      some (AnalyzeFunction.worthBuyingScore r1.current_price r1.priceHistory) := by
  have e1 : AnalyzeFunction.getScore (AnalyzeFunction.handler (some k) r1 up1).1 =
      some (AnalyzeFunction.worthBuyingScore r1.current_price r1.priceHistory) := by
    simp [AnalyzeFunction.handler, AnalyzeFunction.getScore, h1]
  have e2 : AnalyzeFunction.getScore (AnalyzeFunction.handler (some k) r2 up2).1 =
      some (AnalyzeFunction.worthBuyingScore r2.current_price r2.priceHistory) := by
    simp [AnalyzeFunction.handler, AnalyzeFunction.getScore, h2]
  refine ⟨?_, e1⟩
  rw [e1, e2, hc, hp]

/-- Claim C9 witness: equal scores for review lists that differ. -/
theorem c9_witness :
    ((⟨"p", 100, [100, 200], [⟨5, "great"⟩]⟩ :
        AnalyzeFunction.AnalyzeRequest).current_price =
      (⟨"p", 100, [100, 200], []⟩ :
        AnalyzeFunction.AnalyzeRequest).current_price) ∧
    AnalyzeFunction.getScore
        (AnalyzeFunction.handler (some "key") ⟨"p", 100, [100, 200], [⟨5, "great"⟩]⟩
          (fun _ => ⟨200, "text"⟩)).1 =
      AnalyzeFunction.getScore
        (AnalyzeFunction.handler (some "key") ⟨"p", 100, [100, 200], []⟩
          (fun _ => ⟨200, "text"⟩)).1 :=
  ⟨rfl, (c9_score_independent "key" ⟨"p", 100, [100, 200], [⟨5, "great"⟩]⟩
    ⟨"p", 100, [100, 200], []⟩ (fun _ => ⟨200, "text"⟩) (fun _ => ⟨200, "text"⟩)
    rfl rfl rfl rfl).1⟩

/-- Claim C10: the computed recent-price-drops list never exceeds 5
entries, and every entry records a strict drop of at least 5 percent
between two consecutive prices of the fetched history, with the
percentage computed as ((old - new) / old) * 100. -/
theorem c10_price_drops (history : List ProductDetail.PricePoint) :
    (ProductDetail.computePriceDrops history).length ≤ 5 ∧
    ∀ d ∈ ProductDetail.computePriceDrops history,
      d.new_price < d.old_price ∧
      d.drop_percentage = ((d.old_price - d.new_price) / d.old_price) * 100 ∧
      5 ≤ d.drop_percentage ∧
      ∃ pair ∈ history.zip history.tail,
        pair.1.price = d.old_price ∧ pair.2.price = d.new_price ∧
          pair.2.recorded_at = d.date := by
  unfold ProductDetail.computePriceDrops
  by_cases hlen : 1 < history.length
  · rw [if_pos hlen]
    constructor
    · simp [List.length_take]
    · intro d hd
      have hmem : d ∈ ProductDetail.dropsOfPairs history := List.mem_of_mem_take hd
      obtain ⟨p, hp, hfa⟩ := List.mem_filterMap.mp hmem
      dsimp only at hfa
      by_cases h1 : p.2.price < p.1.price
      · rw [if_pos h1] at hfa
        by_cases h2 : (5 : ℚ) ≤ ((p.1.price - p.2.price) / p.1.price) * 100
        · rw [if_pos h2] at hfa
          obtain rfl := Option.some.inj hfa
          exact ⟨h1, rfl, h2, ⟨p, hp, rfl, rfl, rfl⟩⟩
        · rw [if_neg h2] at hfa
          exact absurd hfa (by simp)
      · rw [if_neg h1] at hfa
        exact absurd hfa (by simp)
  · rw [if_neg hlen]
    simp

/-- Claim C10 witness: a concrete two-point history with one 10
percent drop. -/
theorem c10_witness :
    (ProductDetail.computePriceDrops
      [⟨"d1", 100⟩, ⟨"d2", 90⟩]).length ≤ 5 ∧
    ((⟨"d2", 100, 90, 10⟩ : ProductDetail.PriceDrop).new_price <
        (⟨"d2", 100, 90, 10⟩ : ProductDetail.PriceDrop).old_price ∧
      (⟨"d2", 100, 90, 10⟩ : ProductDetail.PriceDrop).drop_percentage =
        (((⟨"d2", 100, 90, 10⟩ : ProductDetail.PriceDrop).old_price -
            (⟨"d2", 100, 90, 10⟩ : ProductDetail.PriceDrop).new_price) /
          (⟨"d2", 100, 90, 10⟩ : ProductDetail.PriceDrop).old_price) * 100 ∧
      5 ≤ (⟨"d2", 100, 90, 10⟩ : ProductDetail.PriceDrop).drop_percentage ∧
      ∃ pair ∈ ([⟨"d1", 100⟩, ⟨"d2", 90⟩] :
          List ProductDetail.PricePoint).zip
            ([⟨"d1", 100⟩, ⟨"d2", 90⟩] :
              List ProductDetail.PricePoint).tail,
        pair.1.price = (⟨"d2", 100, 90, 10⟩ : ProductDetail.PriceDrop).old_price ∧
          pair.2.price = (⟨"d2", 100, 90, 10⟩ : ProductDetail.PriceDrop).new_price ∧
          pair.2.recorded_at = (⟨"d2", 100, 90, 10⟩ : ProductDetail.PriceDrop).date) :=
  ⟨(c10_price_drops [⟨"d1", 100⟩, ⟨"d2", 90⟩]).1,
    (c10_price_drops [⟨"d1", 100⟩, ⟨"d2", 90⟩]).2 ⟨"d2", 100, 90, 10⟩
      (by norm_num [ProductDetail.computePriceDrops, ProductDetail.dropsOfPairs,
        List.filterMap_cons, List.filterMap_nil])⟩
